import Mathlib

/-!
# with-docker-machine

A shallow embedding of `main.go`: the program inspects a docker machine through
the `docker-machine inspect NAME` subprocess, projects the decoded descriptor to
four environment assignments, runs the requested command in exactly that
environment and hands the command's termination status back to the caller.

Everything the program obtains from outside itself (its own name, the parsed
flags, the result of `cmd.Run()`, the captured provider output) is a field of
`World` or of `Flags`; the functions of `main.go` are total functions over them.
Effects are recorded as a list of `Event`s, and the way a run ends as a `Halt`.
-/

namespace WithDockerMachine

/-! ## Processes -/

/-- Where one standard stream of a child process is connected. -/
inductive Stream
  | parentStdin
  | parentStdout
  | parentStderr
  | buffer
  deriving DecidableEq, Repr

/-- The fields of `exec.Cmd` that `main.go` sets. `name` and `args` are the
arguments of `exec.Command(name, args...)`. `env` is the field `Cmd.Env`, a Go slice:
`none` is the nil slice, for which the child gets the environment of the parent. -/
structure Cmd where
  name : String
  args : List String
  env : Option (List String)
  stdin : Stream
  stdout : Stream
  stderr : Stream
  deriving DecidableEq, Repr

/-- The environment of the child that `cmd.Run()` starts, in a parent whose own
environment is `parent`: the parent's when `Cmd.Env` is nil, `Cmd.Env` otherwise. -/
def Cmd.environ (c : Cmd) (parent : List String) : List String :=
  match c.env with
  | none => parent
  | some e => e

/-- How a started child ended (`syscall.WaitStatus`). -/
inductive WaitStatus
  | exited (code : Nat)
  | signaled (sig : Nat)
  deriving DecidableEq, Repr

/-- The exit code of a child that exited, and -1 for one that did not
(`WaitStatus.ExitStatus`). -/
def WaitStatus.ExitStatus : WaitStatus → Int
  | .exited code => (code : Int)
  | .signaled _ => -1

/-- The dynamic types of the non-nil `error` values that `cmd.Run()` returns:
`*exec.ExitError` for a child that started and did not exit with status 0, and any
other error type for a command that could not be started. -/
inductive GoError
  | exitError (ws : WaitStatus)
  | other (msg : String)
  deriving DecidableEq, Repr

/-- The type assertion `err.(*exec.ExitError)` in its two-result form: the
pointer (nil when the assertion fails) and the flag `ok`. -/
def GoError.asExitError : GoError → Option WaitStatus × Bool
  | .exitError ws => (some ws, true)
  | .other _ => (none, false)

/-! ## JSON documents and the machine descriptor -/

/-- A JSON value. -/
inductive Json
  | null
  | bool (b : Bool)
  | num (text : String)
  | str (s : String)
  | arr (items : List Json)
  | obj (members : List (String × Json))

/-- The anonymous struct type of `machine.Driver`. -/
structure DriverFields where
  IpAddress : String
  MachineName : String
  deriving DecidableEq, Repr

/-- The anonymous struct type of `machine.HostOptions.AuthOptions`. -/
structure AuthFields where
  StorePath : String
  deriving DecidableEq, Repr

/-- The anonymous struct type of `machine.HostOptions.EngineOptions`. -/
structure EngineFields where
  TlsVerify : Bool
  deriving DecidableEq, Repr

/-- The anonymous struct type of `machine.HostOptions`. -/
structure HostFields where
  AuthOptions : AuthFields
  EngineOptions : EngineFields
  deriving DecidableEq, Repr

/-- The struct `machine`. -/
structure machine where
  Driver : DriverFields
  HostOptions : HostFields
  deriving DecidableEq, Repr

/-- The value `new(machine)` points to: every field has its zero value. -/
def machine.zero : machine :=
  { Driver := { IpAddress := "", MachineName := "" },
    HostOptions := { AuthOptions := { StorePath := "" },
                     EngineOptions := { TlsVerify := false } } }

/-! ## The world outside the program -/

/-- What a run of the program depends on and does not compute itself. -/
structure World where
  /-- The string `os.Args[0]`. -/
  argv0 : String
  /-- The package variable `version`. -/
  version : String
  /-- The text `flag.PrintDefaults()` writes to standard error. -/
  flagDefaults : String
  /-- The result of `cmd.Run()`: `none` is the nil error. -/
  run : Cmd → Option GoError
  /-- The bytes a child wrote to a buffer it has as standard output, as
  `encoding/json` reads them: `none` when they are not one valid JSON text. -/
  captured : Cmd → Option Json

/-- The parsed command line: the two flags and `flag.Args()`. -/
structure Flags where
  fVersion : Bool
  fMachine : String
  args : List String

/-- An effect of the program that the outside can observe. -/
inductive Event
  | out (text : String)
  | err (text : String)
  | run (c : Cmd)
  deriving DecidableEq, Repr

/-- How a run ends: `os.Exit(code)`; `log.Fatal(e)`, which logs `e` and exits with
status 1; `log.Panic(e)`, which logs `e` and panics with it; or a panic of the Go
runtime, which knows nothing of any `error` value of the program. -/
inductive Halt
  | exit (code : Int)
  | logFatal (e : GoError)
  | logPanic (e : GoError)
  | nilDereference
  | indexOutOfRange
  deriving DecidableEq, Repr

/-- A finished run: what it did, in order, and how it ended. -/
structure Run where
  trace : List Event
  halt : Halt
  deriving DecidableEq, Repr

/-! ## Decoding the provider's document (`encoding/json`) -/

/-- The case folding under which `encoding/json` compares an object key with a
field name made of ASCII letters: ASCII letters lose their case, and the two
non-ASCII runes that fold to an ASCII letter (U+017F, U+212A) fold to it. -/
def foldRune (c : Char) : Char :=
  if c.toNat = 0x17F then 'S'
  else if c.toNat = 0x212A then 'K'
  else c.toUpper

/-- Whether the object key `key` selects the struct field called `field`. -/
def nameMatches (key field : String) : Bool :=
  key.toList.map foldRune == field.toList.map foldRune

/-- Storing a JSON value in a field of kind string: a JSON string is stored, null
leaves the field alone, any other value is a type error that leaves it alone. -/
def setString (old : String) : Json → String
  | .str s => s
  | _ => old

/-- Storing a JSON value in a field of kind bool. -/
def setBool (old : Bool) : Json → Bool
  | .bool b => b
  | _ => old

/-- One member of a JSON object decoded into `machine.Driver`. -/
def DriverFields.member (d : DriverFields) (key : String) (v : Json) : DriverFields :=
  if nameMatches key "IpAddress" then { d with IpAddress := setString d.IpAddress v }
  else if nameMatches key "MachineName" then { d with MachineName := setString d.MachineName v }
  else d

/-- A JSON value decoded into `machine.Driver`: the members of an object are
decoded in order, any other value leaves the struct alone. -/
def DriverFields.decode (d : DriverFields) : Json → DriverFields
  | .obj ms => ms.foldl (fun acc kv => acc.member kv.1 kv.2) d
  | _ => d

/-- One member of a JSON object decoded into `AuthOptions`. -/
def AuthFields.member (a : AuthFields) (key : String) (v : Json) : AuthFields :=
  if nameMatches key "StorePath" then { a with StorePath := setString a.StorePath v }
  else a

/-- A JSON value decoded into `AuthOptions`. -/
def AuthFields.decode (a : AuthFields) : Json → AuthFields
  | .obj ms => ms.foldl (fun acc kv => acc.member kv.1 kv.2) a
  | _ => a

/-- One member of a JSON object decoded into `EngineOptions`. -/
def EngineFields.member (e : EngineFields) (key : String) (v : Json) : EngineFields :=
  if nameMatches key "TlsVerify" then { e with TlsVerify := setBool e.TlsVerify v }
  else e

/-- A JSON value decoded into `EngineOptions`. -/
def EngineFields.decode (e : EngineFields) : Json → EngineFields
  | .obj ms => ms.foldl (fun acc kv => acc.member kv.1 kv.2) e
  | _ => e

/-- One member of a JSON object decoded into `machine.HostOptions`. -/
def HostFields.member (h : HostFields) (key : String) (v : Json) : HostFields :=
  if nameMatches key "AuthOptions" then { h with AuthOptions := h.AuthOptions.decode v }
  else if nameMatches key "EngineOptions" then
    { h with EngineOptions := h.EngineOptions.decode v }
  else h

/-- A JSON value decoded into `machine.HostOptions`. -/
def HostFields.decode (h : HostFields) : Json → HostFields
  | .obj ms => ms.foldl (fun acc kv => acc.member kv.1 kv.2) h
  | _ => h

/-- One member of a JSON object decoded into a `machine`. -/
def machine.member (m : machine) (key : String) (v : Json) : machine :=
  if nameMatches key "Driver" then { m with Driver := m.Driver.decode v }
  else if nameMatches key "HostOptions" then { m with HostOptions := m.HostOptions.decode v }
  else m

/-- A JSON value other than null decoded into a `machine`. -/
def machine.decode (m : machine) : Json → machine
  | .obj ms => ms.foldl (fun acc kv => acc.member kv.1 kv.2) m
  | _ => m

/-- The effect of `json.Unmarshal(data, &m)` on the variable `m` of type `*machine`
(`none` is the nil pointer). Bytes that are not valid JSON leave `m` alone; the
document `null` sets the pointer `m` itself to nil, because the target `&m` is a
pointer to that pointer; any other document is decoded into the struct `m` points
to, which is allocated first when `m` is nil. The `error` result of
`json.Unmarshal` is not part of the model: its only caller drops it. -/
def unmarshal (data : Option Json) (m : Option machine) : Option machine :=
  match data with
  | none => m
  | some .null => none
  | some v => some ((m.getD machine.zero).decode v)

/-- Whether the JSON value `v` is an object with a member that selects the field
`field` and whose value satisfies `p`. -/
def Json.has (v : Json) (field : String) (p : Json → Bool) : Bool :=
  match v with
  | .obj ms => ms.any (fun kv => nameMatches kv.1 field && p kv.2)
  | _ => false

/-- Whether a JSON value is a string. -/
def Json.isStr : Json → Bool
  | .str _ => true
  | _ => false

/-- Whether a JSON value is true or false. -/
def Json.isBool : Json → Bool
  | .bool _ => true
  | _ => false

/-- Whether the document supplies `Driver.IpAddress`. -/
def suppliesIpAddress (doc : Json) : Bool :=
  doc.has "Driver" (fun d => d.has "IpAddress" Json.isStr)

/-- Whether the document supplies `Driver.MachineName`. -/
def suppliesMachineName (doc : Json) : Bool :=
  doc.has "Driver" (fun d => d.has "MachineName" Json.isStr)

/-- Whether the document supplies `HostOptions.AuthOptions.StorePath`. -/
def suppliesStorePath (doc : Json) : Bool :=
  doc.has "HostOptions" (fun h => h.has "AuthOptions" (fun a => a.has "StorePath" Json.isStr))

/-- Whether the document supplies `HostOptions.EngineOptions.TlsVerify`. -/
def suppliesTlsVerify (doc : Json) : Bool :=
  doc.has "HostOptions" (fun h => h.has "EngineOptions" (fun e => e.has "TlsVerify" Json.isBool))

/-- Whether the captured output supplies a field: output that is not valid JSON
supplies nothing. -/
def supplied (data : Option Json) (p : Json → Bool) : Bool :=
  match data with
  | none => false
  | some doc => p doc

/-! ## The program -/

/-- The function `path.Base`: the last element of a slash-separated path, after
trailing slashes are dropped. -/
def pathBase (path : String) : String :=
  if path = "" then "."
  else
    let stripped := (path.toList.reverse.dropWhile (fun c => c == '/')).reverse
    let last := (stripped.reverse.takeWhile (fun c => c != '/')).reverse
    if last = [] then "/" else String.mk last

/-- The function `self`: the program's name. -/
def self (w : World) : String :=
  pathBase w.argv0

/-- The function `usage`: its writes to standard error, with the text of
`flag.PrintDefaults()` in its place among them, then `os.Exit(2)`. -/
def usage (w : World) : Run :=
  { trace :=
      [ .err ("usage: " ++ self w ++ " COMMAND [... ARGS]\n\n"),
        .err "Run COMMAND in an environment defined by docker-machine.\n\n",
        .err w.flagDefaults,
        .err "\nArguments:\n",
        .err "  COMMAND  the command to run (typically \x27docker\x27)\n",
        .err "  ARGS     optional arguments to COMMAND\n" ],
    halt := .exit 2 }

/-- The function `machineEnv`. Its argument is a pointer (`none` is nil), and
reading a field through a nil pointer is a runtime panic. Its result is a Go slice
(`none` would be the nil slice); the slice literal it returns is never nil. -/
def machineEnv (m : Option machine) : Except Halt (Option (List String)) :=
  match m with
  | none => .error .nilDereference
  | some m =>
    let verify := if !m.HostOptions.EngineOptions.TlsVerify then "0" else "1"
    let port := "2376"
    let host := m.Driver.IpAddress ++ ":" ++ port
    let certPath := m.HostOptions.AuthOptions.StorePath
    let name := m.Driver.MachineName
    .ok (some [ "DOCKER_TLS_VERIFY=" ++ verify,
                "DOCKER_HOST=" ++ host,
                "DOCKER_CERT_PATH=" ++ certPath,
                "DOCKER_MACHINE_NAME=" ++ name ])

/-- The command `dockerMachineInspect` runs. -/
def inspectCmd (name : String) : Cmd :=
  { name := "docker-machine", args := ["inspect", name], env := none,
    stdin := .parentStdin, stderr := .parentStderr, stdout := .buffer }

/-- The function `dockerMachineInspect`: its effects, and its two results. -/
def dockerMachineInspect (w : World) (name : String) :
    List Event × Option machine × Option GoError :=
  let m := some machine.zero
  let cmd := inspectCmd name
  match w.run cmd with
  | some err => ([.run cmd], m, some err)
  | none => ([.run cmd], unmarshal (w.captured cmd) m, none)

/-- The function `runCommand`: its effects, and the error of `cmd.Run()`; indexing
an empty `args` is a runtime panic. `env` is a Go slice, `none` the nil slice. -/
def runCommand (w : World) (args : List String) (env : Option (List String)) :
    List Event × Except Halt (Option GoError) :=
  match args with
  | [] => ([], .error .indexOutOfRange)
  | name :: rest =>
    let cmd : Cmd :=
      { name := name, args := rest, stdin := .parentStdin, stdout := .parentStdout,
        stderr := .parentStderr, env := env }
    ([.run cmd], .ok (w.run cmd))

/-- The function `runCommandOrPanic`. -/
def runCommandOrPanic (w : World) (args : List String) (env : Option (List String)) :
    List Event × Except Halt Int :=
  let exit : Int := 0
  match runCommand w args env with
  | (tr, .error h) => (tr, .error h)
  | (tr, .ok none) => (tr, .ok exit)
  | (tr, .ok (some err)) =>
    match err.asExitError with
    | (exitError, ok) =>
      if !ok then
        match exitError with
        | none => (tr, .error .nilDereference)
        | some waitStatus => (tr, .ok waitStatus.ExitStatus)
      else (tr, .error (.logPanic err))

/-- The function `main`, after `flag.Parse()`. -/
def main (w : World) (f : Flags) : Run :=
  let exit : Int := 0
  if f.fVersion then
    { trace := [.out (self w ++ " " ++ w.version ++ "\n")], halt := .exit exit }
  else if f.args.length = 0 then usage w
  else
    match dockerMachineInspect w f.fMachine with
    | (tr, _, some err) => { trace := tr, halt := .logFatal err }
    | (tr, m, none) =>
      match machineEnv m with
      | .error h => { trace := tr, halt := h }
      | .ok env =>
        match runCommandOrPanic w f.args env with
        | (tr2, .error h) => { trace := tr ++ tr2, halt := h }
        | (tr2, .ok code) => { trace := tr ++ tr2, halt := .exit code }

/-! ## Sample worlds -/

/-- A world in which the provider succeeds and leaves `doc` in the buffer, and
in which running any other command gives `result`. -/
def sampleWorld (doc : Option Json) (result : Option GoError) : World :=
  { argv0 := "/usr/local/bin/with-docker-machine",
    version := "0.1.0",
    flagDefaults := "  -machine string\n  -version\n",
    run := fun c =>
      match c.stdout with
      | .buffer => none
      | _ => result,
    captured := fun _ => doc }

/-- A world in which the provider itself fails with `err`. -/
def brokenProviderWorld (err : GoError) : World :=
  { argv0 := "with-docker-machine",
    version := "0.1.0",
    flagDefaults := "",
    run := fun _ => some err,
    captured := fun _ => none }

/-- A document as `docker-machine inspect` prints it, reduced to the members
the program reads and one it does not. -/
def sampleDoc : Json :=
  .obj [ ("DriverName", .str "virtualbox"),
         ("Driver", .obj [("IPAddress", .str "192.168.99.100"), ("MachineName", .str "dev")]),
         ("HostOptions", .obj
            [ ("AuthOptions", .obj [("StorePath", .str "/home/u/.docker/machine/machines/dev")]),
              ("EngineOptions", .obj [("TlsVerify", .bool true)]) ]) ]

/-! ## Theorems -/

/-- C3: when `runCommand` returns a nil error on a non-empty command line (the
child exited with code 0), `runCommandOrPanic` returns 0. -/
theorem runCommandOrPanic_success (w : World) (args : List String)
    (env : Option (List String)) (hne : args ≠ [])
    (h0 : (runCommand w args env).2 = .ok none) :
    (runCommandOrPanic w args env).2 = .ok 0 := by
  cases args with
  | nil => exact absurd rfl hne
  | cons name rest =>
    simp only [runCommand] at h0
    simp only [runCommandOrPanic, runCommand]
    injection h0 with h0
    rw [h0]

/-- Witness of C3 at `true` run in the environment of the sample machine. -/
theorem runCommandOrPanic_success_witness :
    (runCommandOrPanic (sampleWorld (some sampleDoc) none) ["true"]
      (some ["DOCKER_TLS_VERIFY=1"])).2 = .ok 0 :=
  runCommandOrPanic_success (sampleWorld (some sampleDoc) none) ["true"]
    (some ["DOCKER_TLS_VERIFY=1"]) (by simp) rfl

/-- C1: on the code, a child that exits normally with code `N` makes `cmd.Run()`
return an `*exec.ExitError`; the type assertion succeeds, the branch taken is
`log.Panic(err)`, and `runCommandOrPanic` returns no code: it panics, and `main`
ends in that panic and not in `os.Exit(N)`. Stated for every `N`, at the command
`sh -c "exit N"` given as `["sh", "-c", script]`. -/
theorem runCommandOrPanic_nonzero_exit_panics (N : Nat) (script : String)
    (env : Option (List String)) :
    (runCommandOrPanic (sampleWorld (some sampleDoc) (some (.exitError (.exited N))))
        ["sh", "-c", script] env).2
      = .error (.logPanic (.exitError (.exited N)))
    ∧ (main (sampleWorld (some sampleDoc) (some (.exitError (.exited N))))
        { fVersion := false, fMachine := "default", args := ["sh", "-c", script] }).halt
      = .logPanic (.exitError (.exited N)) := by
  constructor <;> rfl

/-- C2: on the code, a command that cannot be started makes `cmd.Run()` return an
error that is not an `*exec.ExitError`; the type assertion fails, the branch taken
reads the wait status through the nil `exitError`, and `runCommandOrPanic` ends in
a nil-dereference panic of the runtime, which does not report the error that
`runCommand` returned. -/
theorem runCommandOrPanic_start_failure_nil_dereference (msg : String)
    (env : Option (List String)) :
    (runCommand (sampleWorld (some sampleDoc) (some (.other msg))) ["nosuchcommand"] env).2
      = .ok (some (.other msg))
    ∧ (runCommandOrPanic (sampleWorld (some sampleDoc) (some (.other msg)))
        ["nosuchcommand"] env).2 = .error .nilDereference
    ∧ (main (sampleWorld (some sampleDoc) (some (.other msg)))
        { fVersion := false, fMachine := "default", args := ["nosuchcommand"] }).halt
      = .nilDereference := by
  refine ⟨rfl, rfl, rfl⟩

/-- The other half of abnormal termination: a child killed by a signal gives an
`*exec.ExitError`, and `runCommandOrPanic` ends in `log.Panic` of that very error. -/
theorem runCommandOrPanic_exitError (w : World) (args : List String)
    (env : Option (List String)) (ws : WaitStatus)
    (h : (runCommand w args env).2 = .ok (some (.exitError ws))) :
    (runCommandOrPanic w args env).2 = .error (.logPanic (.exitError ws)) := by
  cases args with
  | nil => simp [runCommand] at h
  | cons name rest =>
    simp only [runCommand] at h
    simp only [runCommandOrPanic, runCommand]
    injection h with h
    rw [h]
    rfl

/-- In no case does `runCommandOrPanic` return a code when `runCommand` returned an
error: the only branch that would is behind a failed type assertion, where the
pointer it reads through is nil. -/
theorem runCommandOrPanic_error_no_code (w : World) (args : List String)
    (env : Option (List String)) (err : GoError)
    (h : (runCommand w args env).2 = .ok (some err)) (code : Int) :
    (runCommandOrPanic w args env).2 ≠ .ok code := by
  cases args with
  | nil => simp [runCommand] at h
  | cons name rest =>
    simp only [runCommand] at h
    simp only [runCommandOrPanic, runCommand]
    injection h with h
    rw [h]
    cases err <;> simp [GoError.asExitError]

/-- C4: when `cmd.Run()` of `docker-machine inspect NAME` returns an error (the
subprocess could not be started, or exited with a non-zero status),
`dockerMachineInspect` returns that very error, and a `main` that got as far as the
inspection ends in `log.Fatal` of it, having run the provider and nothing else. -/
theorem dockerMachineInspect_failure_is_fatal (w : World) (f : Flags) (err : GoError)
    (hrun : w.run (inspectCmd f.fMachine) = some err)
    (hv : f.fVersion = false) (ha : f.args ≠ []) :
    (dockerMachineInspect w f.fMachine).2.2 = some err
    ∧ main w f = { trace := [.run (inspectCmd f.fMachine)], halt := .logFatal err } := by
  have hlen : f.args.length ≠ 0 := by
    intro h
    exact ha (List.length_eq_zero.mp h)
  constructor
  · simp only [dockerMachineInspect, hrun]
  · simp only [main, hv, hlen, dockerMachineInspect, hrun]
    simp

/-- Witness of C4: the provider exits with status 1. -/
theorem dockerMachineInspect_failure_is_fatal_witness :
    (dockerMachineInspect (brokenProviderWorld (.exitError (.exited 1))) "dev").2.2
      = some (.exitError (.exited 1))
    ∧ main (brokenProviderWorld (.exitError (.exited 1)))
        { fVersion := false, fMachine := "dev", args := ["docker", "ps"] }
      = { trace := [.run (inspectCmd "dev")], halt := .logFatal (.exitError (.exited 1)) } :=
  dockerMachineInspect_failure_is_fatal (brokenProviderWorld (.exitError (.exited 1)))
    { fVersion := false, fMachine := "dev", args := ["docker", "ps"] }
    (.exitError (.exited 1)) rfl rfl (by simp)

/-- C5: for every descriptor `D`, `machineEnv` returns exactly four assignments in
this order: `DOCKER_TLS_VERIFY=` with `1` for a true `TlsVerify` and `0` for a false
one, `DOCKER_HOST=` with the address, a colon and `2376`, `DOCKER_CERT_PATH=` with
`StorePath`, `DOCKER_MACHINE_NAME=` with `MachineName`; and a descriptor with the
empty address gets `DOCKER_HOST=:2376`. -/
theorem machineEnv_exact (D : machine) :
    machineEnv (some D)
      = .ok (some [ "DOCKER_TLS_VERIFY=" ++ (if D.HostOptions.EngineOptions.TlsVerify = true
                                              then "1" else "0"),
                    "DOCKER_HOST=" ++ D.Driver.IpAddress ++ ":" ++ "2376",
                    "DOCKER_CERT_PATH=" ++ D.HostOptions.AuthOptions.StorePath,
                    "DOCKER_MACHINE_NAME=" ++ D.Driver.MachineName ])
    ∧ machineEnv (some { D with Driver := { D.Driver with IpAddress := "" } })
      = .ok (some [ "DOCKER_TLS_VERIFY=" ++ (if D.HostOptions.EngineOptions.TlsVerify = true
                                              then "1" else "0"),
                    "DOCKER_HOST=:2376",
                    "DOCKER_CERT_PATH=" ++ D.HostOptions.AuthOptions.StorePath,
                    "DOCKER_MACHINE_NAME=" ++ D.Driver.MachineName ]) := by
  constructor
  · cases hv : D.HostOptions.EngineOptions.TlsVerify <;>
      simp [machineEnv, hv, String.append_assoc]
  · cases hv : D.HostOptions.EngineOptions.TlsVerify <;>
      simp [machineEnv, hv]

/-- C6: for a non-empty command line and an environment that `machineEnv` returned,
`runCommand` runs one command, whose program is `args[0]`, whose arguments are
`args[1:]`, whose streams are the parent's, and whose child gets exactly that
environment whatever the environment of the parent is. -/
theorem runCommand_child_environment (w : World) (args : List String)
    (m : Option machine) (env : Option (List String)) (parent : List String)
    (hne : args ≠ []) (henv : machineEnv m = .ok env) :
    ∃ c : Cmd, runCommand w args env = ([.run c], .ok (w.run c))
      ∧ c.name = args.head hne ∧ c.args = args.tail
      ∧ c.stdin = .parentStdin ∧ c.stdout = .parentStdout ∧ c.stderr = .parentStderr
      ∧ some (c.environ parent) = env := by
  cases args with
  | nil => exact absurd rfl hne
  | cons name rest =>
    cases m with
    | none => simp [machineEnv] at henv
    | some D =>
      simp only [machineEnv] at henv
      injection henv with henv
      subst henv
      exact ⟨_, rfl, rfl, rfl, rfl, rfl, rfl, rfl⟩

/-- Witness of C6: `docker ps` in the environment of the zero descriptor, in a
parent that has a `PATH`. -/
theorem runCommand_child_environment_witness :
    ∃ c : Cmd,
      runCommand (sampleWorld none none) ["docker", "ps"]
          (some [ "DOCKER_TLS_VERIFY=0", "DOCKER_HOST=:2376", "DOCKER_CERT_PATH=",
                  "DOCKER_MACHINE_NAME=" ])
        = ([.run c], .ok ((sampleWorld none none).run c))
      ∧ c.name = ["docker", "ps"].head (by simp) ∧ c.args = ["docker", "ps"].tail
      ∧ c.stdin = .parentStdin ∧ c.stdout = .parentStdout ∧ c.stderr = .parentStderr
      ∧ some (c.environ ["PATH=/usr/bin"])
        = some [ "DOCKER_TLS_VERIFY=0", "DOCKER_HOST=:2376", "DOCKER_CERT_PATH=",
                 "DOCKER_MACHINE_NAME=" ] :=
  runCommand_child_environment (sampleWorld none none) ["docker", "ps"]
    (some machine.zero) _ ["PATH=/usr/bin"] (by simp) rfl

/-- C7: with no positional argument and without `--version`, whatever `--machine`
is, `main` writes the usage text to standard error and exits with status 2; it
runs no command, neither the provider nor a child. -/
theorem main_usage (w : World) (f : Flags) (hv : f.fVersion = false) (ha : f.args = []) :
    main w f =
      { trace :=
          [ .err ("usage: " ++ self w ++ " COMMAND [... ARGS]\n\n"),
            .err "Run COMMAND in an environment defined by docker-machine.\n\n",
            .err w.flagDefaults,
            .err "\nArguments:\n",
            .err "  COMMAND  the command to run (typically \x27docker\x27)\n",
            .err "  ARGS     optional arguments to COMMAND\n" ],
        halt := .exit 2 }
    ∧ ∀ c : Cmd, Event.run c ∉ (main w f).trace := by
  have hmain : main w f = usage w := by
    simp [main, hv, ha]
  rw [hmain]
  constructor
  · rfl
  · intro c hc
    simp [usage] at hc

/-- Witness of C7: no argument at all, and a machine name that is given. -/
theorem main_usage_witness :
    main (sampleWorld none none) { fVersion := false, fMachine := "dev", args := [] } =
      { trace :=
          [ .err ("usage: " ++ self (sampleWorld none none) ++ " COMMAND [... ARGS]\n\n"),
            .err "Run COMMAND in an environment defined by docker-machine.\n\n",
            .err (sampleWorld none none).flagDefaults,
            .err "\nArguments:\n",
            .err "  COMMAND  the command to run (typically \x27docker\x27)\n",
            .err "  ARGS     optional arguments to COMMAND\n" ],
        halt := .exit 2 }
    ∧ ∀ c : Cmd, Event.run c ∉
        (main (sampleWorld none none) { fVersion := false, fMachine := "dev", args := [] }).trace :=
  main_usage (sampleWorld none none) { fVersion := false, fMachine := "dev", args := [] } rfl rfl

/-- C8: with `--version`, with or without positional arguments and whatever
`--machine` is, `main` writes the program name, a blank, the version and a newline
to standard output and exits with status 0; it runs no command. -/
theorem main_version (w : World) (f : Flags) (hv : f.fVersion = true) :
    main w f = { trace := [.out (pathBase w.argv0 ++ " " ++ w.version ++ "\n")],
                 halt := .exit 0 }
    ∧ ∀ c : Cmd, Event.run c ∉ (main w f).trace := by
  have hmain : main w f
      = { trace := [.out (pathBase w.argv0 ++ " " ++ w.version ++ "\n")],
          halt := .exit 0 } := by
    simp [main, hv, self]
  rw [hmain]
  constructor
  · rfl
  · intro c hc
    simp at hc

/-- Witness of C8: `--version` together with a command line. -/
theorem main_version_witness :
    main (sampleWorld none none)
        { fVersion := true, fMachine := "default", args := ["docker", "ps"] }
      = { trace := [.out (pathBase "/usr/local/bin/with-docker-machine" ++ " " ++ "0.1.0"
                      ++ "\n")],
          halt := .exit 0 }
    ∧ ∀ c : Cmd, Event.run c ∉
        (main (sampleWorld none none)
          { fVersion := true, fMachine := "default", args := ["docker", "ps"] }).trace :=
  main_version (sampleWorld none none)
    { fVersion := true, fMachine := "default", args := ["docker", "ps"] } rfl

/-! ### The decoded descriptor -/

/-- A value that is not a JSON string leaves a string field as it was. -/
theorem setString_of_not_isStr (old : String) (v : Json) (h : v.isStr = false) :
    setString old v = old := by
  cases v <;> simp_all [setString, Json.isStr]

/-- A value that is not a JSON boolean leaves a bool field as it was. -/
theorem setBool_of_not_isBool (old : Bool) (v : Json) (h : v.isBool = false) :
    setBool old v = old := by
  cases v <;> simp_all [setBool, Json.isBool]

/-- Members of which none is a string under the key `IpAddress` leave `IpAddress`. -/
theorem driverFoldl_IpAddress (ms : List (String × Json)) (d : DriverFields)
    (h : ms.any (fun kv => nameMatches kv.1 "IpAddress" && kv.2.isStr) = false) :
    (ms.foldl (fun acc kv => acc.member kv.1 kv.2) d).IpAddress = d.IpAddress := by
  induction ms generalizing d with
  | nil => rfl
  | cons kv rest ih =>
    simp only [List.any_cons, Bool.or_eq_false_iff] at h
    rw [List.foldl_cons, ih _ h.2]
    unfold DriverFields.member
    cases hk0 : nameMatches kv.1 "IpAddress" <;>
      cases hk1 : nameMatches kv.1 "MachineName" <;>
      simp_all [setString_of_not_isStr]

/-- Members of which none is a string under the key `MachineName` leave it. -/
theorem driverFoldl_MachineName (ms : List (String × Json)) (d : DriverFields)
    (h : ms.any (fun kv => nameMatches kv.1 "MachineName" && kv.2.isStr) = false) :
    (ms.foldl (fun acc kv => acc.member kv.1 kv.2) d).MachineName = d.MachineName := by
  induction ms generalizing d with
  | nil => rfl
  | cons kv rest ih =>
    simp only [List.any_cons, Bool.or_eq_false_iff] at h
    rw [List.foldl_cons, ih _ h.2]
    unfold DriverFields.member
    cases hk0 : nameMatches kv.1 "IpAddress" <;>
      cases hk1 : nameMatches kv.1 "MachineName" <;>
      simp_all [setString_of_not_isStr]

/-- Members of which none is a string under the key `StorePath` leave `StorePath`. -/
theorem authFoldl_StorePath (ms : List (String × Json)) (a : AuthFields)
    (h : ms.any (fun kv => nameMatches kv.1 "StorePath" && kv.2.isStr) = false) :
    (ms.foldl (fun acc kv => acc.member kv.1 kv.2) a).StorePath = a.StorePath := by
  induction ms generalizing a with
  | nil => rfl
  | cons kv rest ih =>
    simp only [List.any_cons, Bool.or_eq_false_iff] at h
    rw [List.foldl_cons, ih _ h.2]
    unfold AuthFields.member
    cases hk0 : nameMatches kv.1 "StorePath" <;>
      simp_all [setString_of_not_isStr]

/-- Members of which none is a boolean under the key `TlsVerify` leave `TlsVerify`. -/
theorem engineFoldl_TlsVerify (ms : List (String × Json)) (e : EngineFields)
    (h : ms.any (fun kv => nameMatches kv.1 "TlsVerify" && kv.2.isBool) = false) :
    (ms.foldl (fun acc kv => acc.member kv.1 kv.2) e).TlsVerify = e.TlsVerify := by
  induction ms generalizing e with
  | nil => rfl
  | cons kv rest ih =>
    simp only [List.any_cons, Bool.or_eq_false_iff] at h
    rw [List.foldl_cons, ih _ h.2]
    unfold EngineFields.member
    cases hk0 : nameMatches kv.1 "TlsVerify" <;>
      simp_all [setBool_of_not_isBool]

/-- A value without a string `IpAddress` member leaves `IpAddress`. -/
theorem driverDecode_IpAddress (d : DriverFields) (v : Json)
    (h : v.has "IpAddress" Json.isStr = false) : (d.decode v).IpAddress = d.IpAddress := by
  cases v with
  | obj ms => exact driverFoldl_IpAddress ms d h
  | _ => rfl

/-- A value without a string `MachineName` member leaves `MachineName`. -/
theorem driverDecode_MachineName (d : DriverFields) (v : Json)
    (h : v.has "MachineName" Json.isStr = false) :
    (d.decode v).MachineName = d.MachineName := by
  cases v with
  | obj ms => exact driverFoldl_MachineName ms d h
  | _ => rfl

/-- A value without a string `StorePath` member leaves `StorePath`. -/
theorem authDecode_StorePath (a : AuthFields) (v : Json)
    (h : v.has "StorePath" Json.isStr = false) : (a.decode v).StorePath = a.StorePath := by
  cases v with
  | obj ms => exact authFoldl_StorePath ms a h
  | _ => rfl

/-- A value without a boolean `TlsVerify` member leaves `TlsVerify`. -/
theorem engineDecode_TlsVerify (e : EngineFields) (v : Json)
    (h : v.has "TlsVerify" Json.isBool = false) : (e.decode v).TlsVerify = e.TlsVerify := by
  cases v with
  | obj ms => exact engineFoldl_TlsVerify ms e h
  | _ => rfl

/-- Members of which none supplies `StorePath` under `AuthOptions` leave it. -/
theorem hostFoldl_StorePath (ms : List (String × Json)) (h : HostFields)
    (hno : ms.any (fun kv => nameMatches kv.1 "AuthOptions"
              && kv.2.has "StorePath" Json.isStr) = false) :
    (ms.foldl (fun acc kv => acc.member kv.1 kv.2) h).AuthOptions.StorePath
      = h.AuthOptions.StorePath := by
  induction ms generalizing h with
  | nil => rfl
  | cons kv rest ih =>
    simp only [List.any_cons, Bool.or_eq_false_iff] at hno
    rw [List.foldl_cons, ih _ hno.2]
    unfold HostFields.member
    cases hk0 : nameMatches kv.1 "AuthOptions" <;>
      cases hk1 : nameMatches kv.1 "EngineOptions" <;>
      simp_all [authDecode_StorePath]

/-- Members of which none supplies `TlsVerify` under `EngineOptions` leave it. -/
theorem hostFoldl_TlsVerify (ms : List (String × Json)) (h : HostFields)
    (hno : ms.any (fun kv => nameMatches kv.1 "EngineOptions"
              && kv.2.has "TlsVerify" Json.isBool) = false) :
    (ms.foldl (fun acc kv => acc.member kv.1 kv.2) h).EngineOptions.TlsVerify
      = h.EngineOptions.TlsVerify := by
  induction ms generalizing h with
  | nil => rfl
  | cons kv rest ih =>
    simp only [List.any_cons, Bool.or_eq_false_iff] at hno
    rw [List.foldl_cons, ih _ hno.2]
    unfold HostFields.member
    cases hk0 : nameMatches kv.1 "AuthOptions" <;>
      cases hk1 : nameMatches kv.1 "EngineOptions" <;>
      simp_all [engineDecode_TlsVerify]

/-- A value that does not supply `StorePath` under `AuthOptions` leaves it. -/
theorem hostDecode_StorePath (h : HostFields) (v : Json)
    (hno : v.has "AuthOptions" (fun a => a.has "StorePath" Json.isStr) = false) :
    (h.decode v).AuthOptions.StorePath = h.AuthOptions.StorePath := by
  cases v with
  | obj ms => exact hostFoldl_StorePath ms h hno
  | _ => rfl

/-- A value that does not supply `TlsVerify` under `EngineOptions` leaves it. -/
theorem hostDecode_TlsVerify (h : HostFields) (v : Json)
    (hno : v.has "EngineOptions" (fun e => e.has "TlsVerify" Json.isBool) = false) :
    (h.decode v).EngineOptions.TlsVerify = h.EngineOptions.TlsVerify := by
  cases v with
  | obj ms => exact hostFoldl_TlsVerify ms h hno
  | _ => rfl

/-- Members that do not supply `Driver.IpAddress` leave it. -/
theorem machineFoldl_IpAddress (ms : List (String × Json)) (m : machine)
    (hno : ms.any (fun kv => nameMatches kv.1 "Driver"
              && kv.2.has "IpAddress" Json.isStr) = false) :
    (ms.foldl (fun acc kv => acc.member kv.1 kv.2) m).Driver.IpAddress
      = m.Driver.IpAddress := by
  induction ms generalizing m with
  | nil => rfl
  | cons kv rest ih =>
    simp only [List.any_cons, Bool.or_eq_false_iff] at hno
    rw [List.foldl_cons, ih _ hno.2]
    unfold machine.member
    cases hk0 : nameMatches kv.1 "Driver" <;>
      cases hk1 : nameMatches kv.1 "HostOptions" <;>
      simp_all [driverDecode_IpAddress]

/-- Members that do not supply `Driver.MachineName` leave it. -/
theorem machineFoldl_MachineName (ms : List (String × Json)) (m : machine)
    (hno : ms.any (fun kv => nameMatches kv.1 "Driver"
              && kv.2.has "MachineName" Json.isStr) = false) :
    (ms.foldl (fun acc kv => acc.member kv.1 kv.2) m).Driver.MachineName
      = m.Driver.MachineName := by
  induction ms generalizing m with
  | nil => rfl
  | cons kv rest ih =>
    simp only [List.any_cons, Bool.or_eq_false_iff] at hno
    rw [List.foldl_cons, ih _ hno.2]
    unfold machine.member
    cases hk0 : nameMatches kv.1 "Driver" <;>
      cases hk1 : nameMatches kv.1 "HostOptions" <;>
      simp_all [driverDecode_MachineName]

/-- Members that do not supply `HostOptions.AuthOptions.StorePath` leave it. -/
theorem machineFoldl_StorePath (ms : List (String × Json)) (m : machine)
    (hno : ms.any (fun kv => nameMatches kv.1 "HostOptions"
              && kv.2.has "AuthOptions" (fun a => a.has "StorePath" Json.isStr)) = false) :
    (ms.foldl (fun acc kv => acc.member kv.1 kv.2) m).HostOptions.AuthOptions.StorePath
      = m.HostOptions.AuthOptions.StorePath := by
  induction ms generalizing m with
  | nil => rfl
  | cons kv rest ih =>
    simp only [List.any_cons, Bool.or_eq_false_iff] at hno
    rw [List.foldl_cons, ih _ hno.2]
    unfold machine.member
    cases hk0 : nameMatches kv.1 "Driver" <;>
      cases hk1 : nameMatches kv.1 "HostOptions" <;>
      simp_all [hostDecode_StorePath]

/-- Members that do not supply `HostOptions.EngineOptions.TlsVerify` leave it. -/
theorem machineFoldl_TlsVerify (ms : List (String × Json)) (m : machine)
    (hno : ms.any (fun kv => nameMatches kv.1 "HostOptions"
              && kv.2.has "EngineOptions" (fun e => e.has "TlsVerify" Json.isBool)) = false) :
    (ms.foldl (fun acc kv => acc.member kv.1 kv.2) m).HostOptions.EngineOptions.TlsVerify
      = m.HostOptions.EngineOptions.TlsVerify := by
  induction ms generalizing m with
  | nil => rfl
  | cons kv rest ih =>
    simp only [List.any_cons, Bool.or_eq_false_iff] at hno
    rw [List.foldl_cons, ih _ hno.2]
    unfold machine.member
    cases hk0 : nameMatches kv.1 "Driver" <;>
      cases hk1 : nameMatches kv.1 "HostOptions" <;>
      simp_all [hostDecode_TlsVerify]

/-- A document decoded into a descriptor touches no field it does not supply. -/
theorem machineDecode_unsupplied (m : machine) (doc : Json) :
    (suppliesIpAddress doc = false →
        (m.decode doc).Driver.IpAddress = m.Driver.IpAddress)
    ∧ (suppliesMachineName doc = false →
        (m.decode doc).Driver.MachineName = m.Driver.MachineName)
    ∧ (suppliesStorePath doc = false →
        (m.decode doc).HostOptions.AuthOptions.StorePath = m.HostOptions.AuthOptions.StorePath)
    ∧ (suppliesTlsVerify doc = false →
        (m.decode doc).HostOptions.EngineOptions.TlsVerify
          = m.HostOptions.EngineOptions.TlsVerify) := by
  cases doc with
  | obj ms =>
    exact ⟨machineFoldl_IpAddress ms m, machineFoldl_MachineName ms m,
      machineFoldl_StorePath ms m, machineFoldl_TlsVerify ms m⟩
  | _ => exact ⟨fun _ => rfl, fun _ => rfl, fun _ => rfl, fun _ => rfl⟩

/-- When the provider ran successfully, `dockerMachineInspect` returns a nil error
whatever the captured output is. -/
theorem dockerMachineInspect_nil_error (w : World) (name : String)
    (hrun : w.run (inspectCmd name) = none) :
    (dockerMachineInspect w name).2.2 = none := by
  simp only [dockerMachineInspect, hrun]

/-- When the provider ran successfully and its output is not the document `null`,
`dockerMachineInspect` returns a descriptor, in which every field that the
captured output does not supply has its zero value. -/
theorem dockerMachineInspect_unsupplied_zero (w : World) (name : String)
    (hrun : w.run (inspectCmd name) = none)
    (hdoc : w.captured (inspectCmd name) ≠ some .null) :
    ∃ D : machine, (dockerMachineInspect w name).2.1 = some D
      ∧ (supplied (w.captured (inspectCmd name)) suppliesIpAddress = false →
          D.Driver.IpAddress = "")
      ∧ (supplied (w.captured (inspectCmd name)) suppliesMachineName = false →
          D.Driver.MachineName = "")
      ∧ (supplied (w.captured (inspectCmd name)) suppliesStorePath = false →
          D.HostOptions.AuthOptions.StorePath = "")
      ∧ (supplied (w.captured (inspectCmd name)) suppliesTlsVerify = false →
          D.HostOptions.EngineOptions.TlsVerify = false) := by
  simp only [dockerMachineInspect, hrun]
  cases hc : w.captured (inspectCmd name) with
  | none => exact ⟨machine.zero, rfl, fun _ => rfl, fun _ => rfl, fun _ => rfl, fun _ => rfl⟩
  | some doc =>
    have hnn : doc ≠ .null := fun h => hdoc (by rw [hc, h])
    have hun : unmarshal (some doc) (some machine.zero) = some (machine.zero.decode doc) := by
      cases doc <;> first | rfl | exact absurd rfl hnn
    refine ⟨machine.zero.decode doc, hun, ?_⟩
    exact machineDecode_unsupplied machine.zero doc

/-- C9: on the code, when the provider ran successfully and printed the JSON
document `null`, which supplies none of the four fields, `dockerMachineInspect`
returns a nil error together with a nil `*machine`: `json.Unmarshal` was handed
`&m` and set `m` itself to nil, so there is no descriptor whose fields could have
their zero values. -/
theorem dockerMachineInspect_null_document_nil_descriptor (result : Option GoError)
    (name : String) :
    (sampleWorld (some .null) result).run (inspectCmd name) = none
    ∧ supplied (some .null) suppliesIpAddress = false
    ∧ supplied (some .null) suppliesMachineName = false
    ∧ supplied (some .null) suppliesStorePath = false
    ∧ supplied (some .null) suppliesTlsVerify = false
    ∧ dockerMachineInspect (sampleWorld (some .null) result) name
      = ([.run (inspectCmd name)], none, none) := by
  refine ⟨rfl, rfl, rfl, rfl, rfl, rfl⟩

/-- C10: on the code, the nil `*machine` that `dockerMachineInspect` returns with a
nil error for the document `null` is one on which `machineEnv` fails: it reads
`m.HostOptions` through the nil pointer, and `main` ends in that runtime panic
after the provider and before any child command. -/
theorem machineEnv_fails_on_null_document (result : Option GoError) (name : String)
    (args : List String) :
    (dockerMachineInspect (sampleWorld (some .null) result) name).2.2 = none
    ∧ machineEnv (dockerMachineInspect (sampleWorld (some .null) result) name).2.1
      = .error .nilDereference
    ∧ main (sampleWorld (some .null) result)
        { fVersion := false, fMachine := name, args := "docker" :: args }
      = { trace := [.run (inspectCmd name)], halt := .nilDereference } := by
  refine ⟨rfl, rfl, rfl⟩

/-- On every descriptor that is there, `machineEnv` returns four assignments. -/
theorem machineEnv_some_length (D : machine) :
    ∃ env : List String, machineEnv (some D) = .ok (some env) ∧ env.length = 4 :=
  ⟨_, rfl, rfl⟩

/-! ### The whole program on the sample document -/

/-- The sample document decodes to the descriptor it describes; the key
`IPAddress` selects the field `IpAddress`, and `DriverName` selects nothing. -/
theorem dockerMachineInspect_sampleDoc :
    (dockerMachineInspect (sampleWorld (some sampleDoc) none) "dev").2
      = (some { Driver := { IpAddress := "192.168.99.100", MachineName := "dev" },
                HostOptions :=
                  { AuthOptions := { StorePath := "/home/u/.docker/machine/machines/dev" },
                    EngineOptions := { TlsVerify := true } } },
         none) := by
  decide

/-- On the sample document and a child that exits with code 0, `main` runs the
provider, then the command in the four assignments, and exits with status 0. -/
theorem main_sampleDoc :
    main (sampleWorld (some sampleDoc) none)
        { fVersion := false, fMachine := "dev", args := ["docker", "ps"] }
      = { trace :=
            [ .run (inspectCmd "dev"),
              .run { name := "docker", args := ["ps"],
                     env := some [ "DOCKER_TLS_VERIFY=1",
                                   "DOCKER_HOST=192.168.99.100:2376",
                                   "DOCKER_CERT_PATH=/home/u/.docker/machine/machines/dev",
                                   "DOCKER_MACHINE_NAME=dev" ],
                     stdin := .parentStdin, stdout := .parentStdout,
                     stderr := .parentStderr } ],
          halt := .exit 0 } := by
  decide

end WithDockerMachine
